import Mathlib

/-!
Shallow embedding of the `singlyton` crate's checked (debug_assertions) build
mode: the borrow-state machine of the `SinglytonCell` core (backed by
`AtomicRefCell` in `src/cell.rs`), the public wrappers `Singleton`,
`SingletonUninit` and `SingletonOption` from `src/lib.rs`, and the nightly
variants from `src/nightly/debug.rs` (`Singleton` with `thread_check`,
`SingletonUninit`, `SingletonLazy`).  Panics are modelled as `Except.error`
values; each public operation is modelled as an atomic acquire-use-release
step (the handle is dropped at the end of the operation), matching the
single-thread no-overlapping-handles traces the claims quantify over, while
outstanding handles are modelled by starting an operation from a non-free
borrow state.
-/

namespace Singlyton

/-- Failure modes of the checked build: each is a panic in the source.
`initializerConsumed` is the `Option::unwrap` panic inside
`SingletonLazy::get_lazy` when the one-shot initializer is gone. -/
inductive Error where
  | threadAffinityViolation
  | borrowConflict
  | notInitialized
  | alreadyInitialized
  | emptyValue
  | initializerConsumed
deriving DecidableEq, Repr

/-- Dynamic borrow state of a `SinglytonCell` in checked mode
(`AtomicRefCell` / `RefCell` borrow flag): free, `n` outstanding shared
borrows, or one outstanding exclusive borrow. -/
inductive BorrowState where
  | free
  | shared (n : Nat)
  | exclusive
deriving DecidableEq, Repr

/-- `AtomicRefCell::borrow` / `RefCell::borrow`: acquire a shared borrow;
panics (errors) iff an exclusive borrow is outstanding. -/
def cellBorrow : BorrowState → Except Error BorrowState
  | .free => .ok (.shared 1)
  | .shared n => .ok (.shared (n + 1))
  | .exclusive => .error .borrowConflict

/-- `AtomicRefCell::borrow_mut` / `RefCell::borrow_mut`: acquire the
exclusive borrow; panics (errors) iff any borrow is outstanding. -/
def cellBorrowMut : BorrowState → Except Error BorrowState
  | .free => .ok .exclusive
  | .shared _ => .error .borrowConflict
  | .exclusive => .error .borrowConflict

/-- Dropping a shared handle: decrement the shared count. -/
def releaseShared : BorrowState → BorrowState
  | .shared 1 => .free
  | .shared (n + 2) => .shared (n + 1)
  | b => b

/-- Dropping the exclusive handle: back to free. -/
def releaseMut : BorrowState → BorrowState
  | .exclusive => .free
  | b => b

/-- The thread-affinity check of `src/nightly/debug.rs`
(`impl_thread_check`): if an owning thread is recorded and differs from the
caller, panic; otherwise record the caller as owner (first call only).
Thread identities are modelled as `Nat`. -/
def threadCheck (tid : Nat) : Option Nat → Except Error (Option Nat)
  | some t => if t = tid then .ok (some t) else .error .threadAffinityViolation
  | none => .ok (some tid)

/-- `Singleton<T>` from `src/lib.rs` in checked mode: a `SinglytonCell<T>`
backed by `AtomicRefCell<T>`, which owns the value and the borrow flag and
records no thread identity. -/
structure Singleton (T : Type) where
  value : T
  borrow : BorrowState
deriving DecidableEq, Repr

namespace Singleton

/-- `Singleton::new(val)`. -/
def new (v : T) : Singleton T := ⟨v, .free⟩

/-- `Singleton::get` (`src/lib.rs` line 39): `self.0.get()` =
`AtomicRefCell::borrow`.  The cell has no thread field, so the caller's
thread identity is unused.  The returned handle is dropped at the end of the
step. -/
def get (_tid : Nat) (s : Singleton T) : Except Error (T × Singleton T) :=
  match cellBorrow s.borrow with
  | .error e => .error e
  | .ok b => .ok (s.value, { s with borrow := releaseShared b })

/-- `Singleton::get_mut` followed by writing `v` through the handle and
dropping it (`*SINGLETON.get_mut() = v`). -/
def get_mut_write (_tid : Nat) (v : T) (s : Singleton T) :
    Except Error (Singleton T) :=
  match cellBorrowMut s.borrow with
  | .error e => .error e
  | .ok b => .ok ⟨v, releaseMut b⟩

/-- `Singleton::replace` (`src/lib.rs` line 75): `*self.0.get_mut() = val`. -/
def replace (_tid : Nat) (v : T) (s : Singleton T) :
    Except Error (Singleton T) :=
  match cellBorrowMut s.borrow with
  | .error e => .error e
  | .ok b => .ok ⟨v, releaseMut b⟩

/-- `Singleton::as_ptr` (`src/lib.rs` line 57): `&*self.0.get()` — the
shared-borrow check, then the temporary handle is dropped and the plain
address (modelled by the value readable through it) is returned. -/
def as_ptr (_tid : Nat) (s : Singleton T) : Except Error (T × Singleton T) :=
  match cellBorrow s.borrow with
  | .error e => .error e
  | .ok b => .ok (s.value, { s with borrow := releaseShared b })

/-- `Singleton::as_mut_ptr` (`src/lib.rs` line 67): `&mut *self.0.get_mut()`
— the exclusive-borrow check, then the temporary handle is dropped. -/
def as_mut_ptr (_tid : Nat) (s : Singleton T) :
    Except Error (T × Singleton T) :=
  match cellBorrowMut s.borrow with
  | .error e => .error e
  | .ok b => .ok (s.value, { s with borrow := releaseMut b })

end Singleton

/-- One operation of a single-thread `Singleton` trace with no two handles
alive at once. -/
inductive SingletonOp (T : Type) where
  | get
  | getMutWrite (v : T)
  | replace (v : T)
deriving DecidableEq, Repr

/-- Run a trace of `Singleton` operations from one thread, collecting the
value observed by each `get`. -/
def runSingleton (tid : Nat) :
    List (SingletonOp T) → Singleton T → Except Error (List T × Singleton T)
  | [], s => .ok ([], s)
  | .get :: ops, s =>
    match Singleton.get tid s with
    | .error e => .error e
    | .ok (v, s₁) =>
      match runSingleton tid ops s₁ with
      | .error e => .error e
      | .ok (vs, s₂) => .ok (v :: vs, s₂)
  | .getMutWrite v :: ops, s =>
    match Singleton.get_mut_write tid v s with
    | .error e => .error e
    | .ok s₁ => runSingleton tid ops s₁
  | .replace v :: ops, s =>
    match Singleton.replace tid v s with
    | .error e => .error e
    | .ok s₁ => runSingleton tid ops s₁

/-- Follows the spec's words for claim C3 (refinement side): each `get`
observes the most recent value written by `replace` or through a `get_mut`
handle, or the construction value if no write has occurred; returns the
observation list and the final value. -/
def specObserved : List (SingletonOp T) → T → List T × T
  | [], v => ([], v)
  | .get :: ops, v =>
    let r := specObserved ops v
    (v :: r.1, r.2)
  | .getMutWrite w :: ops, _ => specObserved ops w
  | .replace w :: ops, _ => specObserved ops w

/-- `SingletonUninit<T>` from `src/lib.rs` in checked mode: a
`SinglytonCell<MaybeUninit<T>>` plus the `initialized` flag.  Per the
design note, `MaybeUninit<T>` is modelled as the tagged `Option T`
(`none` = uninitialized storage); `destroyed` logs the values destroyed in
place by `core::ptr::drop_in_place`, in order. -/
structure SingletonUninit (T : Type) where
  value : Option T
  borrow : BorrowState
  initialized : Bool
  destroyed : List T
deriving DecidableEq, Repr

namespace SingletonUninit

/-- `SingletonUninit::uninit()`. -/
def uninit : SingletonUninit T := ⟨none, .free, false, []⟩

/-- `SingletonUninit::new(val)` (`src/lib.rs` line 112): storage already
written, `initialized` flag already `true`. -/
def new (v : T) : SingletonUninit T := ⟨some v, .free, true, []⟩

/-- `SingletonUninit::uninit_check` (`src/lib.rs` line 123): panic if the
`initialized` flag is still false. -/
def uninit_check (s : SingletonUninit T) : Except Error Unit :=
  if s.initialized then .ok () else .error .notInitialized

/-- `SingletonUninit::get` (`src/lib.rs` line 137): `uninit_check`, then
`self.inner.get()` (shared borrow) and `assume_init_ref`.  The read value is
an `Option T`: `none` would be a read of uninitialized storage. -/
def get (s : SingletonUninit T) :
    Except Error (Option T × SingletonUninit T) :=
  match uninit_check s with
  | .error e => .error e
  | .ok _ =>
    match cellBorrow s.borrow with
    | .error e => .error e
    | .ok b => .ok (s.value, { s with borrow := releaseShared b })

/-- `SingletonUninit::get_mut` (`src/lib.rs` line 148) followed by writing
`v` through the handle and dropping it. -/
def get_mut_write (v : T) (s : SingletonUninit T) :
    Except Error (SingletonUninit T) :=
  match uninit_check s with
  | .error e => .error e
  | .ok _ =>
    match cellBorrowMut s.borrow with
    | .error e => .error e
    | .ok b => .ok { s with value := some v, borrow := releaseMut b }

/-- `SingletonUninit::as_ptr` (`src/lib.rs` line 161): `uninit_check`, then
`self.inner.get_mut().as_ptr()` — an exclusive borrow, acquired and dropped
within the statement. -/
def as_ptr (s : SingletonUninit T) :
    Except Error (Option T × SingletonUninit T) :=
  match uninit_check s with
  | .error e => .error e
  | .ok _ =>
    match cellBorrowMut s.borrow with
    | .error e => .error e
    | .ok b => .ok (s.value, { s with borrow := releaseMut b })

/-- `SingletonUninit::as_mut_ptr` (`src/lib.rs` line 172): `uninit_check`,
then `self.inner.get_mut().as_mut_ptr()`. -/
def as_mut_ptr (s : SingletonUninit T) :
    Except Error (Option T × SingletonUninit T) :=
  match uninit_check s with
  | .error e => .error e
  | .ok _ =>
    match cellBorrowMut s.borrow with
    | .error e => .error e
    | .ok b => .ok (s.value, { s with borrow := releaseMut b })

/-- `SingletonUninit::replace` (`src/lib.rs` line 181): `uninit_check`, take
the exclusive borrow, `drop_in_place` the previous value (logged in
`destroyed`), then `write` the new one. -/
def replace (v : T) (s : SingletonUninit T) :
    Except Error (SingletonUninit T) :=
  match uninit_check s with
  | .error e => .error e
  | .ok _ =>
    match cellBorrowMut s.borrow with
    | .error e => .error e
    | .ok b =>
      .ok { value := some v, borrow := releaseMut b,
            initialized := s.initialized,
            destroyed := s.destroyed ++ s.value.toList }

/-- `SingletonUninit::init` (`src/lib.rs` line 196, debug_assertions): read
the flag directly — panic if already set — then `self.inner.get_mut().write`
and set the flag.  No `uninit_check` and no thread check. -/
def init (v : T) (s : SingletonUninit T) : Except Error (SingletonUninit T) :=
  if s.initialized then .error .alreadyInitialized
  else
    match cellBorrowMut s.borrow with
    | .error e => .error e
    | .ok b =>
      .ok { value := some v, borrow := releaseMut b, initialized := true,
            destroyed := s.destroyed }

end SingletonUninit

/-- `SingletonOption<T>` from `src/lib.rs` in checked mode: a
`SinglytonCell<Option<T>>`. -/
structure SingletonOption (T : Type) where
  value : Option T
  borrow : BorrowState
deriving DecidableEq, Repr

namespace SingletonOption

/-- `SingletonOption::new()`: holds `None`. -/
def new : SingletonOption T := ⟨none, .free⟩

/-- `SingletonOption::new_some(val)`. -/
def new_some (v : T) : SingletonOption T := ⟨some v, .free⟩

/-- `SingletonOption::get` (`src/lib.rs` line 288): shared borrow, then
`opt.as_ref().unwrap()` — a panic (`emptyValue`) when the option is
`None`. -/
def get (s : SingletonOption T) : Except Error (T × SingletonOption T) :=
  match cellBorrow s.borrow with
  | .error e => .error e
  | .ok b =>
    match s.value with
    | some v => .ok (v, { s with borrow := releaseShared b })
    | none => .error .emptyValue

/-- `SingletonOption::get_mut` (line 298) followed by writing `v` through
the handle: exclusive borrow, `opt.as_mut().unwrap()`. -/
def get_mut_write (v : T) (s : SingletonOption T) :
    Except Error (SingletonOption T) :=
  match cellBorrowMut s.borrow with
  | .error e => .error e
  | .ok b =>
    match s.value with
    | some _ => .ok ⟨some v, releaseMut b⟩
    | none => .error .emptyValue

/-- `SingletonOption::as_option_ptr` (`src/lib.rs` line 268):
`&*self.0.get_unchecked()` — `get_unchecked` reads `AtomicRefCell::as_ptr`
directly, performing no borrow or thread check and touching no borrow
state. -/
def as_option_ptr (s : SingletonOption T) :
    Except Error (Option T × SingletonOption T) :=
  .ok (s.value, s)

/-- `SingletonOption::as_option_mut_ptr` (`src/lib.rs` line 278):
`&mut *self.0.get_mut_unchecked()` — likewise unchecked. -/
def as_option_mut_ptr (s : SingletonOption T) :
    Except Error (Option T × SingletonOption T) :=
  .ok (s.value, s)

/-- `SingletonOption::replace` (line 306): exclusive borrow, then
`Option::replace` sets `Some(val)` (the previous value, if any, is returned
by `Option::replace` and dropped). -/
def replace (v : T) (s : SingletonOption T) :
    Except Error (SingletonOption T) :=
  match cellBorrowMut s.borrow with
  | .error e => .error e
  | .ok b => .ok ⟨some v, releaseMut b⟩

/-- `SingletonOption::take` (line 314): exclusive borrow, then
`Option::take` returns the held option and leaves `None`. -/
def take (s : SingletonOption T) :
    Except Error (Option T × SingletonOption T) :=
  match cellBorrowMut s.borrow with
  | .error e => .error e
  | .ok b => .ok (s.value, ⟨none, releaseMut b⟩)

/-- `SingletonOption::is_some` (line 322): shared borrow, then
`Option::is_some`. -/
def is_some (s : SingletonOption T) :
    Except Error (Bool × SingletonOption T) :=
  match cellBorrow s.borrow with
  | .error e => .error e
  | .ok b => .ok (s.value.isSome, { s with borrow := releaseShared b })

/-- `SingletonOption::is_none` (line 330): shared borrow, then
`Option::is_none`. -/
def is_none (s : SingletonOption T) :
    Except Error (Bool × SingletonOption T) :=
  match cellBorrow s.borrow with
  | .error e => .error e
  | .ok b => .ok (s.value.isNone, { s with borrow := releaseShared b })

end SingletonOption

end Singlyton

namespace Singlyton.Nightly

open Singlyton

/-- `Singleton<T>` from `src/nightly/debug.rs`: a `RefCell<T>` plus the
recorded owning thread checked by `impl_thread_check`. -/
structure Singleton (T : Type) where
  value : T
  borrow : BorrowState
  thread : Option Nat
deriving DecidableEq, Repr

namespace Singleton

/-- Nightly `Singleton::new(val)` (`src/nightly/debug.rs` line 70). -/
def new (v : T) : Singleton T := ⟨v, .free, none⟩

/-- Nightly `Singleton::get` (`src/nightly/debug.rs` line 41):
`thread_check()` then `self.inner.borrow()`. -/
def get (tid : Nat) (s : Singleton T) : Except Error (T × Singleton T) :=
  match threadCheck tid s.thread with
  | .error e => .error e
  | .ok th =>
    match cellBorrow s.borrow with
    | .error e => .error e
    | .ok b => .ok (s.value, { s with thread := th, borrow := releaseShared b })

/-- Nightly `Singleton::get_mut` (line 47) followed by writing `v` through
the handle: `thread_check()` then `self.inner.borrow_mut()`. -/
def get_mut_write (tid : Nat) (v : T) (s : Singleton T) :
    Except Error (Singleton T) :=
  match threadCheck tid s.thread with
  | .error e => .error e
  | .ok th =>
    match cellBorrowMut s.borrow with
    | .error e => .error e
    | .ok b => .ok ⟨v, releaseMut b, th⟩

end Singleton

/-- `SingletonLazy<T, F>` from `src/nightly/debug.rs`: a
`OnceCell<RefCell<T>>` (modelled as `value : Option T` with the `RefCell`
borrow flag alongside), the recorded owning thread, and the one-shot
initializer in an `UnsafeCell<Option<F>>`.  `invocations` counts how many
times the initializer closure has been called. -/
structure SingletonLazy (T : Type) where
  value : Option T
  borrow : BorrowState
  thread : Option Nat
  initializer : Option (Unit → T)
  invocations : Nat

namespace SingletonLazy

/-- Nightly `SingletonLazy::new(initializer)` (line 241). -/
def new (f : Unit → T) : SingletonLazy T := ⟨none, .free, none, some f, 0⟩

/-- `SingletonLazy::get_lazy` (line 207):
`self.inner.get_or_init(|| RefCell::new((initializer.take().unwrap())()))` —
if the `OnceCell` is already set, return its contents untouched; otherwise
take the initializer out (panicking if it is already gone), call it, and
store the result. -/
def get_lazy (s : SingletonLazy T) : Except Error (T × SingletonLazy T) :=
  match s.value with
  | some v => .ok (v, s)
  | none =>
    match s.initializer with
    | some f =>
      let v := f ()
      .ok (v, { s with value := some v, initializer := none,
                       invocations := s.invocations + 1 })
    | none => .error .initializerConsumed

/-- The four read accessors of `SingletonLazy`: `get`, `get_mut`, `as_ptr`,
`as_mut_ptr` (lines 212-233).  Each runs `thread_check()`, then `get_lazy`,
then borrows the inner `RefCell` (shared for `get`/`as_ptr`, exclusive for
`get_mut`/`as_mut_ptr`) and drops the handle. -/
inductive LazyAccess where
  | get
  | getMut
  | asPtr
  | asMutPtr
deriving DecidableEq, Repr

/-- One read access on a `SingletonLazy` by thread `tid`, returning the
value it observes. -/
def access (tid : Nat) (a : LazyAccess) (s : SingletonLazy T) :
    Except Error (T × SingletonLazy T) :=
  match threadCheck tid s.thread with
  | .error e => .error e
  | .ok th =>
    match get_lazy { s with thread := th } with
    | .error e => .error e
    | .ok (v, s₁) =>
      match a with
      | .get | .asPtr =>
        match cellBorrow s₁.borrow with
        | .error e => .error e
        | .ok b => .ok (v, { s₁ with borrow := releaseShared b })
      | .getMut | .asMutPtr =>
        match cellBorrowMut s₁.borrow with
        | .error e => .error e
        | .ok b => .ok (v, { s₁ with borrow := releaseMut b })

/-- Nightly `SingletonLazy::replace` (line 235): `thread_check()`, then
`*self.get_lazy().borrow_mut() = val` — `get_lazy` resolves the cell first,
then the freshly resolved (or existing) value is overwritten. -/
def replace (tid : Nat) (v : T) (s : SingletonLazy T) :
    Except Error (SingletonLazy T) :=
  match threadCheck tid s.thread with
  | .error e => .error e
  | .ok th =>
    match get_lazy { s with thread := th } with
    | .error e => .error e
    | .ok (_, s₁) =>
      match cellBorrowMut s₁.borrow with
      | .error e => .error e
      | .ok b => .ok { s₁ with value := some v, borrow := releaseMut b }

/-- Run a list of read accesses by thread `tid`, collecting the observed
values. -/
def runAccesses (tid : Nat) :
    List LazyAccess → SingletonLazy T →
      Except Error (List T × SingletonLazy T)
  | [], s => .ok ([], s)
  | a :: as_, s =>
    match access tid a s with
    | .error e => .error e
    | .ok (v, s₁) =>
      match runAccesses tid as_ s₁ with
      | .error e => .error e
      | .ok (vs, s₂) => .ok (v :: vs, s₂)

end SingletonLazy

end Singlyton.Nightly

namespace Singlyton.Nightly

open Singlyton

/-- `SingletonUninit<T>` from `src/nightly/debug.rs`: `RefCell<MaybeUninit<T>>`
plus a recorded owning thread and the `initialized` flag. -/
structure SingletonUninit (T : Type) where
  value : Option T
  borrow : BorrowState
  thread : Option Nat
  initialized : Bool
deriving DecidableEq, Repr

namespace SingletonUninit

/-- `SingletonUninit::uninit()` (`src/nightly/debug.rs` line 149). -/
def uninit : SingletonUninit T := ⟨none, .free, none, false⟩

/-- `uninit_check` (`src/nightly/debug.rs` line 100). -/
def uninit_check (s : SingletonUninit T) : Except Error Unit :=
  if s.initialized then .ok () else .error .notInitialized

/-- Nightly `SingletonUninit::get` (`src/nightly/debug.rs` line 107):
`uninit_check()` first, then `thread_check()`, then the shared borrow. -/
def get (tid : Nat) (s : SingletonUninit T) :
    Except Error (Option T × SingletonUninit T) :=
  match uninit_check s with
  | .error e => .error e
  | .ok _ =>
    match threadCheck tid s.thread with
    | .error e => .error e
    | .ok th =>
      match cellBorrow s.borrow with
      | .error e => .error e
      | .ok b =>
        .ok (s.value, { s with thread := th, borrow := releaseShared b })

/-- Nightly `SingletonUninit::get_mut` (line 116) followed by a write
through the handle: `uninit_check`, `thread_check`, exclusive borrow. -/
def get_mut_write (tid : Nat) (v : T) (s : SingletonUninit T) :
    Except Error (SingletonUninit T) :=
  match uninit_check s with
  | .error e => .error e
  | .ok _ =>
    match threadCheck tid s.thread with
    | .error e => .error e
    | .ok th =>
      match cellBorrowMut s.borrow with
      | .error e => .error e
      | .ok b =>
        .ok { s with value := some v, thread := th, borrow := releaseMut b }

/-- Nightly `SingletonUninit::replace` (line 138): `uninit_check`,
`thread_check`, exclusive borrow, `drop_in_place` then `write`. -/
def replace (tid : Nat) (v : T) (s : SingletonUninit T) :
    Except Error (SingletonUninit T) :=
  match uninit_check s with
  | .error e => .error e
  | .ok _ =>
    match threadCheck tid s.thread with
    | .error e => .error e
    | .ok th =>
      match cellBorrowMut s.borrow with
      | .error e => .error e
      | .ok b =>
        .ok { s with value := some v, thread := th, borrow := releaseMut b }

end SingletonUninit

end Singlyton.Nightly

namespace Singlyton

/-- Running a single-thread trace from a free borrow state never fails and
matches the spec-side observation function. -/
theorem runSingleton_free (T : Type) (tid : Nat)
    (ops : List (SingletonOp T)) (v₀ : T) :
    runSingleton tid ops ⟨v₀, .free⟩ =
      .ok ((specObserved ops v₀).1,
        (⟨(specObserved ops v₀).2, .free⟩ : Singleton T)) := by
  induction ops generalizing v₀ with
  | nil => rfl
  | cons op ops ih =>
    cases op with
    | get =>
      simp [runSingleton, Singleton.get, cellBorrow, releaseShared,
        specObserved, ih v₀]
    | getMutWrite v =>
      simp [runSingleton, Singleton.get_mut_write, cellBorrowMut,
        releaseMut, specObserved, ih v]
    | replace v =>
      simp [runSingleton, Singleton.replace, cellBorrowMut, releaseMut,
        specObserved, ih v]

/-- Claim C3: for every single-thread trace of `get` / `get_mut` / `replace`
operations on a `Singleton` with no two handles alive at once, no operation
fails, and each `get` observes the most recent value written (or the
construction value before any write). -/
theorem singleton_single_thread_traces_ok (T : Type) (tid : Nat)
    (ops : List (SingletonOp T)) (v₀ : T) :
    runSingleton tid ops (Singleton.new v₀) =
      .ok ((specObserved ops v₀).1, Singleton.new (specObserved ops v₀).2) :=
  runSingleton_free T tid ops v₀

/-- Claim C4: with a shared handle outstanding, acquiring the exclusive
borrow fails with a borrow conflict; with the exclusive handle outstanding,
acquiring any borrow fails with a borrow conflict; acquiring a shared borrow
while only shared handles are outstanding succeeds. -/
theorem borrow_conflicts (n : Nat) :
    cellBorrowMut (.shared (n + 1)) = .error .borrowConflict
    ∧ cellBorrow .exclusive = .error .borrowConflict
    ∧ cellBorrowMut .exclusive = .error .borrowConflict
    ∧ cellBorrow (.shared (n + 1)) = .ok (.shared (n + 2)) := by
  refine ⟨rfl, rfl, rfl, rfl⟩

/-- Closed witness for `borrow_conflicts`: hypotheses discharged at a
concrete shared count. -/
theorem borrow_conflicts_witness :
    cellBorrowMut (.shared 1) = .error .borrowConflict
    ∧ cellBorrow .exclusive = .error .borrowConflict
    ∧ cellBorrowMut .exclusive = .error .borrowConflict
    ∧ cellBorrow (.shared 1) = .ok (.shared 2) :=
  borrow_conflicts 0

/-- Claim C5: on a `SingletonUninit` in checked mode, `get` before `init`
fails with the not-initialized panic; after `init v₁`, `get` returns `v₁`; a
second `init` fails with the already-initialized panic; after `replace v₂`,
`get` returns `v₂`, and `replace` destroyed the previous value (`v₁` is
logged as dropped in place) before writing the new one. -/
theorem uninit_lifecycle (T : Type) (v₁ v₂ : T) :
    SingletonUninit.get (SingletonUninit.uninit (T := T)) =
      .error .notInitialized
    ∧ SingletonUninit.init v₁ SingletonUninit.uninit =
      .ok ⟨some v₁, .free, true, []⟩
    ∧ SingletonUninit.get (⟨some v₁, .free, true, []⟩ : SingletonUninit T) =
      .ok (some v₁, ⟨some v₁, .free, true, []⟩)
    ∧ SingletonUninit.init v₂ (⟨some v₁, .free, true, []⟩ : SingletonUninit T) =
      .error .alreadyInitialized
    ∧ SingletonUninit.replace v₂ (⟨some v₁, .free, true, []⟩ : SingletonUninit T) =
      .ok ⟨some v₂, .free, true, [v₁]⟩
    ∧ SingletonUninit.get (⟨some v₂, .free, true, [v₁]⟩ : SingletonUninit T) =
      .ok (some v₂, ⟨some v₂, .free, true, [v₁]⟩) := by
  refine ⟨rfl, rfl, rfl, rfl, ?_, rfl⟩
  simp [SingletonUninit.replace, SingletonUninit.uninit_check, cellBorrowMut,
    releaseMut]

/-- Claim C6: every `SingletonUninit` operation other than `init` checks the
`initialized` flag before the borrow or thread check: on an uninitialized
cell each of them fails with the not-initialized panic whatever the borrow
state (here including states where the borrow check would fail), and, for
the nightly variant, whatever the recorded owning thread and the calling
thread (including callers the thread check would reject). -/
theorem uninit_flag_checked_first (T : Type) (v : Option T) (w : T)
    (b : BorrowState) (d : List T) (t : Option Nat) (tid : Nat) :
    SingletonUninit.get (⟨v, b, false, d⟩ : SingletonUninit T) =
      .error .notInitialized
    ∧ SingletonUninit.get_mut_write w (⟨v, b, false, d⟩ : SingletonUninit T) =
      .error .notInitialized
    ∧ SingletonUninit.as_ptr (⟨v, b, false, d⟩ : SingletonUninit T) =
      .error .notInitialized
    ∧ SingletonUninit.as_mut_ptr (⟨v, b, false, d⟩ : SingletonUninit T) =
      .error .notInitialized
    ∧ SingletonUninit.replace w (⟨v, b, false, d⟩ : SingletonUninit T) =
      .error .notInitialized
    ∧ Nightly.SingletonUninit.get tid
        (⟨v, b, t, false⟩ : Nightly.SingletonUninit T) =
      .error .notInitialized
    ∧ Nightly.SingletonUninit.get_mut_write tid w
        (⟨v, b, t, false⟩ : Nightly.SingletonUninit T) =
      .error .notInitialized
    ∧ Nightly.SingletonUninit.replace tid w
        (⟨v, b, t, false⟩ : Nightly.SingletonUninit T) =
      .error .notInitialized :=
  ⟨rfl, rfl, rfl, rfl, rfl, rfl, rfl, rfl⟩

/-- Claim C10: a `SingletonUninit` built with the value-taking constructor
`new(val)` starts already initialized: `get` returns `val` with no prior
`init` call, and a subsequent `init` fails with the already-initialized
panic. -/
theorem uninit_new_starts_initialized (T : Type) (v w : T) :
    SingletonUninit.get (SingletonUninit.new v) =
      .ok (some v, SingletonUninit.new v)
    ∧ SingletonUninit.init w (SingletonUninit.new v) =
      .error .alreadyInitialized :=
  ⟨rfl, rfl⟩

/-- Claim C1 fails on the `AtomicRefCell`-based checked cell of the built
crate: thread 1 performs a complete `get` on a fresh `Singleton` (the state
afterwards is again `Singleton.new 42`), and a subsequent `get` by thread 2
succeeds — no thread identity is recorded and no thread-affinity panic
occurs.  The nightly variant does behave as the claim states: after thread 1
is recorded as owner, thread 2's `get` panics with the thread-affinity
violation. -/
theorem singleton_thread_affinity_unchecked :
    Singleton.get 1 (Singleton.new 42) = .ok (42, Singleton.new 42)
    ∧ Singleton.get 2 (Singleton.new 42) = .ok (42, Singleton.new 42)
    ∧ Nightly.Singleton.get 1 (Nightly.Singleton.new 42) =
      .ok (42, ⟨42, .free, some 1⟩)
    ∧ Nightly.Singleton.get 2 (⟨42, .free, some 1⟩ : Nightly.Singleton Nat) =
      .error .threadAffinityViolation := by
  refine ⟨rfl, rfl, rfl, ?_⟩
  simp [Nightly.Singleton.get, threadCheck]

/-- Claim C2 fails: with the exclusive borrow outstanding,
`SingletonOption::get` / `get_mut` panic with a borrow conflict, but the raw
pointer accessors `as_option_ptr` / `as_option_mut_ptr` succeed — they are
built on `get_unchecked` and perform no check at all; and on an initialized
`SingletonUninit` with one shared handle outstanding, `get` (the shared
handle accessor) succeeds while `as_ptr` (the shared pointer accessor)
panics with a borrow conflict, because it performs the exclusive-borrow
check instead of the shared one. -/
theorem raw_pointer_checks_diverge :
    SingletonOption.get (⟨some 5, .exclusive⟩ : SingletonOption Nat) =
      .error .borrowConflict
    ∧ SingletonOption.get_mut_write 6
        (⟨some 5, .exclusive⟩ : SingletonOption Nat) = .error .borrowConflict
    ∧ SingletonOption.as_option_ptr
        (⟨some 5, .exclusive⟩ : SingletonOption Nat) =
      .ok (some 5, ⟨some 5, .exclusive⟩)
    ∧ SingletonOption.as_option_mut_ptr
        (⟨some 5, .exclusive⟩ : SingletonOption Nat) =
      .ok (some 5, ⟨some 5, .exclusive⟩)
    ∧ SingletonUninit.get (⟨some 7, .shared 1, true, []⟩ : SingletonUninit Nat) =
      .ok (some 7, ⟨some 7, .shared 1, true, []⟩)
    ∧ SingletonUninit.as_ptr
        (⟨some 7, .shared 1, true, []⟩ : SingletonUninit Nat) =
      .error .borrowConflict :=
  ⟨rfl, rfl, rfl, rfl, rfl, rfl⟩

/-- Claim C7: a fresh `SingletonOption` has `is_none() == true`; after
`replace v`, `is_some() == true` and `get` returns `v`; `take` returns `v`
and leaves the cell empty, so `is_none() == true` again and `get` fails with
the empty-value panic. -/
theorem option_lifecycle (T : Type) (v : T) :
    SingletonOption.is_none (SingletonOption.new (T := T)) =
      .ok (true, SingletonOption.new)
    ∧ SingletonOption.replace v SingletonOption.new = .ok ⟨some v, .free⟩
    ∧ SingletonOption.is_some (⟨some v, .free⟩ : SingletonOption T) =
      .ok (true, ⟨some v, .free⟩)
    ∧ SingletonOption.get (⟨some v, .free⟩ : SingletonOption T) =
      .ok (v, ⟨some v, .free⟩)
    ∧ SingletonOption.take (⟨some v, .free⟩ : SingletonOption T) =
      .ok (some v, ⟨none, .free⟩)
    ∧ SingletonOption.is_none (⟨none, .free⟩ : SingletonOption T) =
      .ok (true, ⟨none, .free⟩)
    ∧ SingletonOption.get (⟨none, .free⟩ : SingletonOption T) =
      .error .emptyValue :=
  ⟨rfl, rfl, rfl, rfl, rfl, rfl, rfl⟩

end Singlyton

namespace Singlyton.Nightly

open Singlyton

/-- Once a `SingletonLazy` is resolved and owned by the calling thread,
every further read access returns the stored value and leaves the state
(including the invocation count) unchanged. -/
theorem runAccesses_resolved (T : Type) (tid : Nat)
    (ops : List SingletonLazy.LazyAccess) (w : T) (k : Nat) :
    SingletonLazy.runAccesses tid ops
        (⟨some w, .free, some tid, none, k⟩ : SingletonLazy T) =
      .ok (List.replicate ops.length w,
        (⟨some w, .free, some tid, none, k⟩ : SingletonLazy T)) := by
  induction ops with
  | nil => rfl
  | cons a ops ih =>
    cases a <;>
      simp [SingletonLazy.runAccesses, SingletonLazy.access, threadCheck,
        SingletonLazy.get_lazy, cellBorrow, cellBorrowMut, releaseShared,
        releaseMut, List.replicate, ih]

/-- Claim C8: across any sequence of `get` / `get_mut` / `as_ptr` /
`as_mut_ptr` calls from the owning thread on a fresh `SingletonLazy`, every
access succeeds and observes the initializer's single output, and the
initializer is invoked at most once: the invocation count of the final state
is 0 for the empty sequence and exactly 1 otherwise. -/
theorem lazy_initializer_at_most_once (T : Type) (f : Unit → T) (tid : Nat)
    (ops : List SingletonLazy.LazyAccess) :
    SingletonLazy.runAccesses tid ops (SingletonLazy.new f) =
      .ok (List.replicate ops.length (f ()),
        if ops.isEmpty then SingletonLazy.new f
        else (⟨some (f ()), .free, some tid, none, 1⟩ : SingletonLazy T))
    ∧ (if ops.isEmpty then SingletonLazy.new f
        else (⟨some (f ()), .free, some tid, none, 1⟩ :
          SingletonLazy T)).invocations ≤ 1 := by
  cases ops with
  | nil => exact ⟨rfl, by simp [SingletonLazy.new]⟩
  | cons a ops =>
    refine ⟨?_, by simp⟩
    cases a <;>
      simp [SingletonLazy.runAccesses, SingletonLazy.access, threadCheck,
        SingletonLazy.new, SingletonLazy.get_lazy, cellBorrow, cellBorrowMut,
        releaseShared, releaseMut, List.replicate,
        runAccesses_resolved T tid ops (f ()) 1]

/-- Claim C9: `replace v` on a fresh (unresolved) `SingletonLazy` forces
resolution first — the initializer is invoked (invocation count 1) and
consumed (`initializer = none`) — and then overwrites with `v`; a subsequent
`get` returns `v` and leaves the invocation count at 1, so the initializer
is never invoked again. -/
theorem lazy_replace_forces_resolution (T : Type) (f : Unit → T) (v : T)
    (tid : Nat) :
    SingletonLazy.replace tid v (SingletonLazy.new f) =
      .ok (⟨some v, .free, some tid, none, 1⟩ : SingletonLazy T)
    ∧ SingletonLazy.access tid .get
        (⟨some v, .free, some tid, none, 1⟩ : SingletonLazy T) =
      .ok (v, (⟨some v, .free, some tid, none, 1⟩ : SingletonLazy T)) := by
  constructor
  · simp [SingletonLazy.replace, SingletonLazy.new, threadCheck,
      SingletonLazy.get_lazy, cellBorrowMut, releaseMut]
  · simp [SingletonLazy.access, threadCheck, SingletonLazy.get_lazy,
      cellBorrow, releaseShared]

end Singlyton.Nightly
